import Mathlib

/-!
Shallow embedding of `mapio_gpio_ha` (src/mapio_gpio_ha/app/app.py and
src/mapio_gpio_ha/cli.py): the bridge supervisor that exposes a relay, three
LED channels, a battery sensor and an optional set of Linky teleinfo sensors
over MQTT.  Pure fragments of the Python code are translated into Lean
functions; the I/O boundaries (probe stdout, serial records, GPIO line,
MQTT publishes) are made explicit as function arguments and event traces.
-/

namespace MapioGpioHa

/-! ## Python string primitives used by the code -/

/-- Python exception kinds relevant to the translated code paths. -/
inductive PyErr where
  | indexError
  | unicodeDecodeError
  | valueError
deriving DecidableEq

/-- Whitespace characters removed by Python `str.strip()` (ASCII subset,
which is all that reaches the code: probe stdout and serial lines). -/
def isPyWhitespace (c : Char) : Bool :=
  c = ' ' || c = '\t' || c = '\n' || c = '\r' || c = '\x0b' || c = '\x0c'

/-- `str.strip()` on a character list: drop whitespace from both ends. -/
def pyStripChars (l : List Char) : List Char :=
  ((l.dropWhile isPyWhitespace).reverse.dropWhile isPyWhitespace).reverse

/-- Python `s.strip()`. -/
def pyStrip (s : String) : String :=
  ⟨pyStripChars s.data⟩

/-- Python `s.split(" ")` on a character list: split at every single space,
keeping empty fields (so `"BASE"` gives one field, `"A  B"` gives three). -/
def splitOnSpace : List Char → List (List Char)
  | [] => [[]]
  | c :: cs =>
    if c = ' ' then [] :: splitOnSpace cs
    else
      match splitOnSpace cs with
      | [] => [[c]]
      | f :: fs => (c :: f) :: fs

/-- Python `s.split(" ")`. -/
def pySplitSpace (s : String) : List String :=
  (splitOnSpace s.data).map (fun l => ⟨l⟩)

/-- Value of a hexadecimal digit (Python `int(_, 16)` accepts both cases). -/
def hexVal (c : Char) : Option Nat :=
  if '0' ≤ c ∧ c ≤ '9' then some (c.toNat - '0'.toNat)
  else if 'a' ≤ c ∧ c ≤ 'f' then some (c.toNat - 'a'.toNat + 10)
  else if 'A' ≤ c ∧ c ≤ 'F' then some (c.toNat - 'A'.toNat + 10)
  else none

/-- Hex digits after the first one: Python allows a single underscore
between digits (`int("1_a", 16) = 26`) but not doubled or trailing. -/
def hexDigitsAux (acc : Nat) : List Char → Option Nat
  | [] => some acc
  | '_' :: [] => none
  | '_' :: c :: cs =>
    match hexVal c with
    | some d => hexDigitsAux (16 * acc + d) cs
    | none => none
  | c :: cs =>
    match hexVal c with
    | some d => hexDigitsAux (16 * acc + d) cs
    | none => none

/-- A nonempty run of hex digits (with Python's underscore rule). -/
def parseHexBody : List Char → Option Nat
  | [] => none
  | c :: cs =>
    match hexVal c with
    | some d => hexDigitsAux d cs
    | none => none

/-- Python `int(s, 16)`: strip whitespace, optional sign, optional `0x`/`0X`
prefix (an underscore may follow the prefix), then hex digits; anything else
raises `ValueError` (modelled as `none`). -/
def pyIntHex (s : String) : Option Int :=
  let l := pyStripChars s.data
  let signed : Int × List Char :=
    match l with
    | '+' :: rest => (1, rest)
    | '-' :: rest => (-1, rest)
    | _ => (1, l)
  let body : List Char :=
    match signed.2 with
    | '0' :: 'x' :: '_' :: rest => rest
    | '0' :: 'x' :: rest => rest
    | '0' :: 'X' :: '_' :: rest => rest
    | '0' :: 'X' :: rest => rest
    | rest => rest
  (parseHexBody body).map (fun n => signed.1 * (n : Int))

/-! ## Static tables (app.py lines 23-79) -/

/-- One entry of `HA_LINKY_MEASURES` (unit, device class, state class,
exposed variable), app.py lines 23-48. -/
structure LinkyMeasure where
  unit : String
  device_class : String
  state_class : String
  exposed_variable : String
deriving DecidableEq

/-- `HA_LINKY_MEASURES`: the Linky measures exposed to HA. -/
def HA_LINKY_MEASURES : List LinkyMeasure :=
  [ { unit := "W", device_class := "apparent_power",
      state_class := "measurement", exposed_variable := "apparent_power" },
    { unit := "Wh", device_class := "energy",
      state_class := "total_increasing",
      exposed_variable := "current_summ_delivered" },
    { unit := "Wh", device_class := "energy",
      state_class := "total_increasing",
      exposed_variable := "current_tier1_summ_delivered" },
    { unit := "Wh", device_class := "energy",
      state_class := "total_increasing",
      exposed_variable := "current_tier2_summ_delivered" } ]

/-- One entry of `LINKY_REGISTERS` (register name, exposed variable),
app.py lines 66-79. -/
structure LinkyRegister where
  name : String
  exposed_variable : String
deriving DecidableEq

/-- `LINKY_REGISTERS`: the Linky read registers, app.py lines 66-79. -/
def LINKY_REGISTERS : List LinkyRegister :=
  [ { name := "BASE", exposed_variable := "current_summ_delivered" },
    { name := "PAPP", exposed_variable := "apparent_power" },
    { name := "SINSTS", exposed_variable := "apparent_power" },
    { name := "SINSTS1", exposed_variable := "apparent_power" },
    { name := "HCHC", exposed_variable := "current_tier1_summ_delivered" },
    { name := "EASF01", exposed_variable := "current_tier1_summ_delivered" },
    { name := "EJPHN", exposed_variable := "current_tier1_summ_delivered" },
    { name := "BBRHCJB", exposed_variable := "current_tier1_summ_delivered" },
    { name := "HCHP", exposed_variable := "current_tier2_summ_delivered" },
    { name := "EASF02", exposed_variable := "current_tier2_summ_delivered" },
    { name := "EJPHPM", exposed_variable := "current_tier2_summ_delivered" },
    { name := "BBRHPJB", exposed_variable := "current_tier2_summ_delivered" } ]

/-! ## Teleinfo serial reader (app.py `read_teleinfo`, lines 271-296) -/

/-- Body of the `for register in LINKY_REGISTERS` loop of `read_teleinfo`
(app.py lines 285-291) applied to one decoded, stripped line: for every
register whose name the line starts with, `line.split(" ")[1]` is published
to the register's exposed variable; a missing second field raises
`IndexError`.  Publishes are returned as (exposed_variable, value) pairs in
loop order. -/
def processRegisters : List LinkyRegister → String → Except PyErr (List (String × String))
  | [], _ => .ok []
  | r :: rs, line =>
    if r.name.data.isPrefixOf line.data then
      match (pySplitSpace line)[1]? with
      | none => .error .indexError
      | some v =>
        match processRegisters rs line with
        | .error e => .error e
        | .ok rest => .ok ((r.exposed_variable, v) :: rest)
    else processRegisters rs line

/-- One iteration of the inner `try` of `read_teleinfo` (app.py lines
282-291): decode the raw record (`none` models a byte sequence that fails
UTF-8 decoding and raises `UnicodeDecodeError`), strip it, and run the
register loop. -/
def handleRecord (raw : Option String) : Except PyErr (List (String × String)) :=
  match raw with
  | none => .error .unicodeDecodeError
  | some s => processRegisters LINKY_REGISTERS (pyStrip s)

/-- The `while True` loop of `read_teleinfo` (app.py lines 280-296) run over
a finite trace of incoming serial records: `UnicodeDecodeError` is caught
(a warning is logged and the loop continues); any other exception propagates
and terminates the reader.  Returns the publishes made and the exception
that escaped the loop, if any. -/
def read_teleinfo : List (Option String) → List (String × String) × Option PyErr
  | [] => ([], none)
  | raw :: rest =>
    match handleRecord raw with
    | .error .unicodeDecodeError => read_teleinfo rest
    | .error e => ([], some e)
    | .ok pubs =>
      match read_teleinfo rest with
      | (ps, err) => (pubs ++ ps, err)

/-! ## Command dispatcher (`on` / `off` callbacks, app.py lines 113-170) -/

/-- Observable events of a dispatched command, in program order:
`gpioWrite v` is `relay1_ctrl.set_value(v)`; `fileWrite path s` is writing
`s` into the sysfs brightness file at `path`; `announce id b` is
`entity.set_on()` / `entity.set_off()` on the entity named `id`;
`logInfo` / `logError` are the logger calls. -/
inductive Event where
  | gpioWrite (v : Nat)
  | fileWrite (path : String) (contents : String)
  | announce (id : String) (isOn : Bool)
  | logInfo (msg : String)
  | logError (msg : String)
deriving DecidableEq

/-- The `on` callback (app.py lines 113-140) as its event trace (`on` is a
reserved token in Lean, hence the name).  The
`entity` argument always denotes the switch named `name` (see the callback
wiring in `expose_mapio_gpio_to_ha`, app.py lines 201-215), so the state
announcement is recorded against `name`. -/
def onCallback (name : String) : List Event :=
  Event.logInfo ("ON command for " ++ name) ::
  (if name = "RELAY1" then
    [Event.gpioWrite 1, Event.announce "RELAY1" true]
  else if name = "LED_R" then
    [Event.fileWrite "/sys/class/leds/LED2_R/brightness" "1",
     Event.announce "LED_R" true]
  else if name = "LED_G" then
    [Event.fileWrite "/sys/class/leds/LED2_G/brightness" "1",
     Event.announce "LED_G" true]
  else if name = "LED_B" then
    [Event.fileWrite "/sys/class/leds/LED2_B/brightness" "1",
     Event.announce "LED_B" true]
  else
    [Event.logError ("Unknown device " ++ name)])

/-- The `off` callback (app.py lines 143-170) as its event trace. -/
def offCallback (name : String) : List Event :=
  Event.logInfo ("OFF command for " ++ name) ::
  (if name = "RELAY1" then
    [Event.gpioWrite 0, Event.announce "RELAY1" false]
  else if name = "LED_R" then
    [Event.fileWrite "/sys/class/leds/LED2_R/brightness" "0",
     Event.announce "LED_R" false]
  else if name = "LED_G" then
    [Event.fileWrite "/sys/class/leds/LED2_G/brightness" "0",
     Event.announce "LED_G" false]
  else if name = "LED_B" then
    [Event.fileWrite "/sys/class/leds/LED2_B/brightness" "0",
     Event.announce "LED_B" false]
  else
    [Event.logError ("Unknown device " ++ name)])

/-- Command dispatch: an inbound MQTT command for `id` invokes the `on` or
`off` callback wired to that switch. -/
def dispatch (id : String) (requestedOn : Bool) : List Event :=
  if requestedOn then onCallback id else offCallback id

/-- The switch identities that have a branch in the `on`/`off` callbacks
(and a callback wired in `expose_mapio_gpio_to_ha`). -/
def knownSwitchIdentities : List String :=
  ["RELAY1", "LED_R", "LED_G", "LED_B"]

/-- The physical write carried by an event: the GPIO level, or the numeric
reading of the `"1"`/`"0"` string written to a brightness file.  Logging and
state announcements carry none. -/
def writeLevel : Event → Option Nat
  | Event.gpioWrite v => some v
  | Event.fileWrite _ s => some (if s = "1" then 1 else 0)
  | _ => none

/-- The sequence of physical write levels in a trace. -/
def physWrites (es : List Event) : List Nat :=
  es.filterMap writeLevel

/-- Whether an event is a physical write. -/
def isPhysWrite (e : Event) : Bool :=
  (writeLevel e).isSome

/-- Whether an event is an outward state announcement. -/
def isAnnounce : Event → Bool
  | Event.announce _ _ => true
  | _ => false

/-- All state announcements of a trace, as (identity, state) pairs. -/
def announcedStates (es : List Event) : List (String × Bool) :=
  es.filterMap (fun e =>
    match e with
    | Event.announce i b => some (i, b)
    | _ => none)

/-- Last announced state of identity `id` in a trace, if any. -/
def lastAnnounced (id : String) (es : List Event) : Option Bool :=
  ((announcedStates es).filterMap
    (fun p => if p.1 = id then some p.2 else none)).getLast?

/-- Checks that the trace contains exactly one physical write and exactly
one announcement, with the write strictly earlier. -/
def singleWriteBeforeAnnounce (es : List Event) : Bool :=
  (es.filter isPhysWrite).length = 1 &&
  (es.filter isAnnounce).length = 1 &&
  match es.findIdx? isPhysWrite, es.findIdx? isAnnounce with
  | some wi, some ai => wi < ai
  | _, _ => false

/-- Entity switch states as a map from identity to last published state;
applying a trace folds its announcements into the map. -/
def applyEvents (es : List Event) (st : String → Option Bool) : String → Option Bool :=
  es.foldl
    (fun st e =>
      match e with
      | Event.announce i b => fun j => if j = i then some b else st j
      | _ => st)
    st

/-- The everywhere-unpublished entity state map. -/
def noPublishedState : String → Option Bool := fun _ => none

/-! ## Telemetry sampler (`refresh_mapio_gpio_to_ha`, app.py lines 242-269) -/

/-- Voltage-to-percentage thresholds of `refresh_mapio_gpio_to_ha`
(app.py lines 256-264): strict greater-than at 4, 3.75, 3.5, 3.25. -/
def percentOfVoltage (v : ℚ) : Nat :=
  if v > 4 then 100
  else if v > 3.75 then 75
  else if v > 3.5 then 50
  else if v > 3.25 then 25
  else 0

/-- Outcome of one call to `refresh_mapio_gpio_to_ha`: either
`ups.publish_state(percent)` was reached, or `int(output, 16)` raised
`ValueError` and nothing was published. -/
inductive RefreshResult where
  | published (percent : Nat)
  | valueError
deriving DecidableEq

/-- `refresh_mapio_gpio_to_ha` (app.py lines 242-269), parameterised by the
stdout of the two probe pipelines (`os.popen(...).read()` returns the raw
text and never raises; a probe that cannot be invoked yields empty stdout).
If the PMIC model reads `"a0"` the analog register output is scaled by
`2/100`, otherwise by `4/100`; the raw output is fed to `int(_, 16)` as is
(the `volt=`/`V` replacements in the code happen after the parse and their
result is unused).  Voltage arithmetic is modelled exactly over ℚ; on every
reachable comparison this agrees with Python float arithmetic. -/
def refresh_mapio_gpio_to_ha (modelOut ainOut : String) : RefreshResult :=
  let factor : ℚ := if pyStrip modelOut = "a0" then 2 else 4
  match pyIntHex ainOut with
  | none => .valueError
  | some n => .published (percentOfVoltage (factor * (n : ℚ) / 100))

/-- The `while True` poll loop of the `app` entrypoint (cli.py lines 68-75)
run over a finite trace of poll ticks, each tick giving the two probe
outputs.  A tick that publishes contributes its percentage; a `ValueError`
escaping `refresh_mapio_gpio_to_ha` is not caught (only
`KeyboardInterrupt` is) and terminates the loop.  Returns the published
percentages and whether an exception escaped the loop. -/
def appPollLoop : List (String × String) → List Nat × Bool
  | [] => ([], false)
  | (m, a) :: rest =>
    match refresh_mapio_gpio_to_ha m a with
    | .valueError => ([], true)
    | .published p =>
      match appPollLoop rest with
      | (ps, crashed) => (p :: ps, crashed)

/-! ## Entity exposure (`expose_mapio_gpio_to_ha`, app.py lines 186-240) -/

/-- Kind of an exposed entity: `MqttSwitch`, `MqttSensor` (numeric),
`MqttTicSensor`, or a binary sensor (the spec's third entity kind; the code
never constructs one). -/
inductive EntityKind where
  | switch
  | sensor
  | ticSensor
  | binarySensor
deriving DecidableEq

/-- An entity as registered with HA: kind, display name, unique id, and the
sensor metadata passed to the constructor (none for switches). -/
structure Entity where
  kind : EntityKind
  name : String
  uniqueId : String
  unit : Option String
  device_class : Option String
  state_class : Option String
deriving DecidableEq

/-- A switch entity (no measurement metadata). -/
def mkSwitch (name uniqueId : String) : Entity :=
  { kind := .switch, name := name, uniqueId := uniqueId,
    unit := none, device_class := none, state_class := none }

/-- The entities constructed and registered by `expose_mapio_gpio_to_ha`
(app.py lines 186-240), in construction order: the RELAY1 switch, the three
LED switches, the UPS battery sensor, and — only when `linky` is enabled —
one `MqttTicSensor` per entry of `HA_LINKY_MEASURES`. -/
def expose_mapio_gpio_to_ha (linky : Bool) : List Entity :=
  [ mkSwitch "RELAY1" "RELAY1",
    mkSwitch "LED_R" "LED_R",
    mkSwitch "LED_G" "LED_G",
    mkSwitch "LED_B" "LED_B",
    { kind := .sensor, name := "UPS Voltage", uniqueId := "ups",
      unit := some "%", device_class := some "battery",
      state_class := none } ] ++
  (if linky then
    HA_LINKY_MEASURES.map (fun m =>
      { kind := .ticSensor,
        name := "Teleinfo " ++ m.exposed_variable,
        uniqueId := m.exposed_variable,
        unit := some m.unit,
        device_class := some m.device_class,
        state_class := some m.state_class })
  else [])

/-- Number of entities of a given kind in a list. -/
def countKind (k : EntityKind) (es : List Entity) : Nat :=
  (es.filter (fun e => e.kind = k)).length

/-! ## Supervisor shutdown (`close_mapio_gpio_to_ha`, app.py lines 298-314) -/

/-- State of the GPIO output line held by the supervisor: whether the line
is currently requested (owned) and its last driven level. -/
structure GpioLineState where
  requested : Bool
  value : Nat
deriving DecidableEq

/-- Modelled from the spec: the §6 GPIO collaborator, whose `set` operates
on an acquired line and whose `release` must be called exactly once per
acquire — operating on a line that is no longer requested fails (libgpiod
rejects `set_value` on a released line with an error). -/
def gpioSetValue (l : GpioLineState) (v : Nat) : Except String GpioLineState :=
  if l.requested then .ok { l with value := v }
  else .error "line not requested"

/-- Modelled from the spec: releasing the §6 GPIO collaborator's line; a
release of a line that is not requested fails. -/
def gpioRelease (l : GpioLineState) : Except String GpioLineState :=
  if l.requested then .ok { l with requested := false }
  else .error "line not requested"

/-- Observable supervisor state touched by shutdown: the relay line, whether
the MQTT entities are still registered, and whether the client is
connected. -/
structure SupervisorState where
  relay1_ctrl : GpioLineState
  entitiesRegistered : Bool
  clientConnected : Bool
deriving DecidableEq

/-- `close_mapio_gpio_to_ha` (app.py lines 298-314): drive the relay line to
0, release it, then close every entity and disconnect the client.  An error
raised by a GPIO operation propagates (nothing later in the body runs). -/
def close_mapio_gpio_to_ha (s : SupervisorState) : Except String SupervisorState :=
  match gpioSetValue s.relay1_ctrl 0 with
  | .error e => .error e
  | .ok l1 =>
    match gpioRelease l1 with
    | .error e => .error e
    | .ok l2 =>
      .ok { relay1_ctrl := l2, entitiesRegistered := false,
            clientConnected := false }

/-- Supervisor state in the `running` phase: the relay line acquired in
`__init__` (app.py lines 180-184) is requested, entities are registered and
the client connected.  `v` is whatever level the relay was last driven to. -/
def runningSupervisor (v : Nat) : SupervisorState :=
  { relay1_ctrl := { requested := true, value := v },
    entitiesRegistered := true, clientConnected := true }

/-- Two consecutive shutdowns starting from a running supervisor whose
relay is at level 1. -/
def closeTwiceFromRunning : Except String SupervisorState :=
  match close_mapio_gpio_to_ha (runningSupervisor 1) with
  | .error e => .error e
  | .ok s1 => close_mapio_gpio_to_ha s1

/-- Modelled from the spec's words, for comparison with the code's
recognition: the spec claims a line is recognized exactly when its first
whitespace-separated token equals one of the known register names. -/
def specFirstTokenRecognized (line : String) : Bool :=
  match (pySplitSpace (pyStrip line)).head? with
  | some t => LINKY_REGISTERS.any (fun r => r.name = t)
  | none => false

/-- The supervisor state left behind by a completed shutdown. -/
def closedSupervisor : SupervisorState :=
  { relay1_ctrl := { requested := false, value := 0 },
    entitiesRegistered := false, clientConnected := false }

/-! ## Helper lemmas -/

/-- A character list without a space splits into a single field. -/
lemma splitOnSpace_of_no_space {l : List Char} (h : ' ' ∉ l) :
    splitOnSpace l = [l] := by
  induction l with
  | nil => rfl
  | cons c cs ih =>
    have hc : ¬(c = ' ') := fun hc => h (hc ▸ List.mem_cons_self c cs)
    have ht : ' ' ∉ cs := fun hm => h (List.mem_cons_of_mem c hm)
    simp only [splitOnSpace, if_neg hc, ih ht]

/-- If some register matches the line but the line has no second field, the
register loop raises `IndexError`. -/
lemma processRegisters_indexError {regs : List LinkyRegister} {l : String}
    (h1 : (regs.any fun r => r.name.data.isPrefixOf l.data) = true)
    (h2 : (pySplitSpace l)[1]? = none) :
    processRegisters regs l = .error .indexError := by
  induction regs with
  | nil => simp at h1
  | cons r rs ih =>
    simp only [List.any_cons, Bool.or_eq_true] at h1
    by_cases hp : r.name.data.isPrefixOf l.data
    · simp only [processRegisters, if_pos hp, h2]
    · rcases h1 with h1 | h1
      · exact absurd h1 hp
      · simp only [processRegisters, if_neg hp]
        exact ih h1

/-- If the line has a second field `v`, the register loop publishes `v` once
per matching register, in table order, to that register's exposed
variable. -/
lemma processRegisters_publishes {regs : List LinkyRegister} {l v : String}
    (h : (pySplitSpace l)[1]? = some v) :
    processRegisters regs l =
      .ok ((regs.filter (fun r => r.name.data.isPrefixOf l.data)).map
            (fun r => (r.exposed_variable, v))) := by
  induction regs with
  | nil => rfl
  | cons r rs ih =>
    by_cases hp : r.name.data.isPrefixOf l.data
    · simp [processRegisters, hp, h, ih, List.filter_cons]
    · simp [processRegisters, hp, ih, List.filter_cons]

/-- A line matched by no register produces no publish and no error. -/
lemma processRegisters_noMatch {regs : List LinkyRegister} {l : String}
    (h : ∀ r ∈ regs, r.name.data.isPrefixOf l.data = false) :
    processRegisters regs l = .ok [] := by
  induction regs with
  | nil => rfl
  | cons r rs ih =>
    have hr := h r (List.mem_cons_self r rs)
    simp only [processRegisters, hr, Bool.false_eq_true, if_false]
    exact ih (fun r' hm => h r' (List.mem_cons_of_mem r hm))

/-- The percentage thresholds are monotone in the voltage. -/
lemma percentOfVoltage_mono {v w : ℚ} (h : v ≤ w) :
    percentOfVoltage v ≤ percentOfVoltage w := by
  unfold percentOfVoltage
  split_ifs with a1 b1 a2 b2 a3 b3 a4 b4 a5 b5 a6 b6 a7 b7 a8
  all_goals try norm_num
  all_goals exfalso
  all_goals linarith

/-! ## Claim theorems -/

/-- Claim C2, counterexample: recognition is not "first token exactly equals
a known register name" — the line `"BASEX 5"`, whose first token `"BASEX"`
is not a register name, is nevertheless matched (prefix `"BASE"`) and its
second token is published to `current_summ_delivered`. -/
theorem claim_C2_counterexample :
    specFirstTokenRecognized "BASEX 5" = false ∧
    handleRecord (some "BASEX 5") = .ok [("current_summ_delivered", "5")] :=
  ⟨by rfl, by rfl⟩

/-- Claim C2 (amended): the reader recognizes a line when its text starts
with a known register name (prefix match, one publish per matching entry) —
not when its first token equals one exactly; `"UNKNOWN_REG 5"` produces no
publish and no error, and `"HCHC 012345678"` publishes raw value
`"012345678"` to `current_tier1_summ_delivered`. -/
theorem claim_C2 :
    handleRecord (some "UNKNOWN_REG 5") = .ok [] ∧
    handleRecord (some "HCHC 012345678") =
      .ok [("current_tier1_summ_delivered", "012345678")] ∧
    (∀ line : String,
      (∀ r ∈ LINKY_REGISTERS,
        r.name.data.isPrefixOf (pyStrip line).data = false) →
      handleRecord (some line) = .ok []) := by
  refine ⟨by rfl, by rfl, fun line h => ?_⟩
  exact processRegisters_noMatch h

/-- Claim C2, witness: the no-prefix-match case of `claim_C2` at the
concrete line `"NO_SUCH 7"`. -/
theorem claim_C2_witness :
    handleRecord (some "NO_SUCH 7") = .ok [] :=
  claim_C2.2.2 "NO_SUCH 7" (by decide)

/-- Claim C9: a decoded line that begins with a known register name but
contains no space makes `line.split(" ")[1]` raise `IndexError`, which only
`UnicodeDecodeError` handling does not catch, so it escapes and terminates
the serial reader loop (subsequent records are not processed). -/
theorem claim_C9 : ∀ (line : String) (rest : List (Option String)),
    (LINKY_REGISTERS.any
      fun r => r.name.data.isPrefixOf (pyStrip line).data) = true →
    ' ' ∉ (pyStrip line).data →
    handleRecord (some line) = .error .indexError ∧
    read_teleinfo (some line :: rest) = ([], some .indexError) := by
  intro line rest h1 h2
  have hsplit : (pySplitSpace (pyStrip line))[1]? = none := by
    unfold pySplitSpace
    rw [splitOnSpace_of_no_space h2]
    rfl
  have herr : handleRecord (some line) = .error .indexError := by
    show processRegisters LINKY_REGISTERS (pyStrip line) = _
    exact processRegisters_indexError h1 hsplit
  refine ⟨herr, ?_⟩
  simp [read_teleinfo, herr]

/-- Claim C9, witness: `claim_C9` at the line `"BASE"` followed by a
well-formed record that is consequently never processed. -/
theorem claim_C9_witness :
    handleRecord (some "BASE") = .error .indexError ∧
    read_teleinfo [some "BASE", some "PAPP 100"] = ([], some .indexError) :=
  claim_C9 "BASE" [some "PAPP 100"] (by rfl) (by decide)

/-- Claim C10: register recognition is prefix-based over every table entry —
a line with a second token gets one publish of that token per matching
entry, each to that entry's exposed variable; `"SINSTS1 42"` matches both
`"SINSTS"` and `"SINSTS1"` and is published twice to `apparent_power`. -/
theorem claim_C10 :
    (∀ (line v : String), (pySplitSpace line)[1]? = some v →
      processRegisters LINKY_REGISTERS line =
        .ok ((LINKY_REGISTERS.filter
              (fun r => r.name.data.isPrefixOf line.data)).map
              (fun r => (r.exposed_variable, v)))) ∧
    handleRecord (some "SINSTS1 42") =
      .ok [("apparent_power", "42"), ("apparent_power", "42")] ∧
    (LINKY_REGISTERS.filter
        (fun r => r.name.data.isPrefixOf "SINSTS1 42".data)).map
        (fun r => r.name) = ["SINSTS", "SINSTS1"] :=
  ⟨fun _ _ h => processRegisters_publishes h, by rfl, by rfl⟩

/-- Claim C10, witness: the general part of `claim_C10` at the concrete line
`"SINSTS1 42"`, evaluated to the two publishes. -/
theorem claim_C10_witness :
    (pySplitSpace "SINSTS1 42")[1]? = some "42" ∧
    processRegisters LINKY_REGISTERS "SINSTS1 42" =
      .ok [("apparent_power", "42"), ("apparent_power", "42")] := by
  have h : (pySplitSpace "SINSTS1 42")[1]? = some "42" := by rfl
  exact ⟨h, (claim_C10.1 "SINSTS1 42" "42" h).trans (by rfl)⟩

/-- Claim C4: for every known switch identity, a dispatched command performs
exactly one physical write strictly before its state announcement, and
`dispatch(id, true)` followed by `dispatch(id, false)` leaves the physical
write sequence `[1, 0]` with the entity's last announced state off. -/
theorem claim_C4 : ∀ id ∈ knownSwitchIdentities,
    singleWriteBeforeAnnounce (dispatch id true) = true ∧
    singleWriteBeforeAnnounce (dispatch id false) = true ∧
    physWrites (dispatch id true ++ dispatch id false) = [1, 0] ∧
    lastAnnounced id (dispatch id true ++ dispatch id false) = some false := by
  intro id h
  simp only [knownSwitchIdentities, List.mem_cons, List.not_mem_nil,
    or_false] at h
  rcases h with rfl | rfl | rfl | rfl <;> decide

/-- Claim C4, witness: `claim_C4` at the identity `"RELAY1"`. -/
theorem claim_C4_witness :
    "RELAY1" ∈ knownSwitchIdentities ∧
    (singleWriteBeforeAnnounce (dispatch "RELAY1" true) = true ∧
     singleWriteBeforeAnnounce (dispatch "RELAY1" false) = true ∧
     physWrites (dispatch "RELAY1" true ++ dispatch "RELAY1" false) = [1, 0] ∧
     lastAnnounced "RELAY1" (dispatch "RELAY1" true ++ dispatch "RELAY1" false) =
       some false) :=
  ⟨by decide, claim_C4 "RELAY1" (by decide)⟩

/-- Claim C5: dispatching a command for an identity outside the static
switch table performs no physical write, announces nothing (so every
entity's published state is unchanged), and only logs an "Unknown device"
error; dispatch stays a pure table lookup, so later commands are served
unaffected. -/
theorem claim_C5 : ∀ (id : String) (b : Bool), id ∉ knownSwitchIdentities →
    physWrites (dispatch id b) = [] ∧
    announcedStates (dispatch id b) = [] ∧
    (∀ st : String → Option Bool, applyEvents (dispatch id b) st = st) ∧
    Event.logError ("Unknown device " ++ id) ∈ dispatch id b := by
  intro id b h
  simp only [knownSwitchIdentities, List.mem_cons, List.not_mem_nil,
    or_false, not_or] at h
  obtain ⟨h1, h2, h3, h4⟩ := h
  cases b
  · have trace : dispatch id false =
        [Event.logInfo ("OFF command for " ++ id),
         Event.logError ("Unknown device " ++ id)] := by
      simp [dispatch, offCallback, h1, h2, h3, h4]
    rw [trace]
    exact ⟨rfl, rfl, fun st => rfl, by simp⟩
  · have trace : dispatch id true =
        [Event.logInfo ("ON command for " ++ id),
         Event.logError ("Unknown device " ++ id)] := by
      simp [dispatch, onCallback, h1, h2, h3, h4]
    rw [trace]
    exact ⟨rfl, rfl, fun st => rfl, by simp⟩

/-- Claim C5, witness: `claim_C5` at the unknown identity `"UNKNOWN"` with
an ON command, applied to the empty published-state map. -/
theorem claim_C5_witness :
    "UNKNOWN" ∉ knownSwitchIdentities ∧
    physWrites (dispatch "UNKNOWN" true) = [] ∧
    announcedStates (dispatch "UNKNOWN" true) = [] ∧
    applyEvents (dispatch "UNKNOWN" true) noPublishedState = noPublishedState ∧
    Event.logError "Unknown device UNKNOWN" ∈ dispatch "UNKNOWN" true := by
  have h := claim_C5 "UNKNOWN" true (by decide)
  exact ⟨by decide, h.1, h.2.1, h.2.2.1 noPublishedState, h.2.2.2⟩

/-- Claim C6: the voltage-to-percentage mapping is a monotonic step function
with strict greater-than thresholds — above 4 gives 100, else above 3.75
gives 75, else above 3.5 gives 50, else above 3.25 gives 25, otherwise 0;
the inputs 4.2, 3.8, 3.6, 3.3, 3 map to 100, 75, 50, 25, 0 and exactly 3.75
maps to 50. -/
theorem claim_C6 :
    (∀ v w : ℚ, v ≤ w → percentOfVoltage v ≤ percentOfVoltage w) ∧
    (∀ v : ℚ,
      (4 < v → percentOfVoltage v = 100) ∧
      (v ≤ 4 → 3.75 < v → percentOfVoltage v = 75) ∧
      (v ≤ 3.75 → 3.5 < v → percentOfVoltage v = 50) ∧
      (v ≤ 3.5 → 3.25 < v → percentOfVoltage v = 25) ∧
      (v ≤ 3.25 → percentOfVoltage v = 0)) ∧
    percentOfVoltage 4.2 = 100 ∧ percentOfVoltage 3.8 = 75 ∧
    percentOfVoltage 3.6 = 50 ∧ percentOfVoltage 3.3 = 25 ∧
    percentOfVoltage 3 = 0 ∧ percentOfVoltage 3.75 = 50 := by
  refine ⟨fun v w h => percentOfVoltage_mono h,
    fun v => ⟨?_, ?_, ?_, ?_, ?_⟩, ?_, ?_, ?_, ?_, ?_, ?_⟩
  · intro h1
    unfold percentOfVoltage
    rw [if_pos h1]
  · intro h1 h2
    unfold percentOfVoltage
    rw [if_neg (not_lt.mpr h1), if_pos h2]
  · intro h1 h2
    unfold percentOfVoltage
    rw [if_neg (not_lt.mpr (by linarith)), if_neg (not_lt.mpr h1), if_pos h2]
  · intro h1 h2
    unfold percentOfVoltage
    rw [if_neg (not_lt.mpr (by linarith)), if_neg (not_lt.mpr (by linarith)),
      if_neg (not_lt.mpr h1), if_pos h2]
  · intro h1
    unfold percentOfVoltage
    rw [if_neg (not_lt.mpr (by linarith)), if_neg (not_lt.mpr (by linarith)),
      if_neg (not_lt.mpr (by linarith)), if_neg (not_lt.mpr h1)]
  all_goals norm_num [percentOfVoltage]

/-- Claim C6, witness: the monotonicity and the 75-bucket of `claim_C6` at
concrete voltages 3.3 ≤ 3.8 and 3.9. -/
theorem claim_C6_witness :
    percentOfVoltage 3.3 ≤ percentOfVoltage 3.8 ∧ percentOfVoltage 3.9 = 75 :=
  ⟨claim_C6.1 3.3 3.8 (by norm_num),
   (claim_C6.2.1 3.9).2.1 (by norm_num) (by norm_num)⟩

/-- Claim C1, counterexample: after a good tick (probe `"a0"`/`"1a"`
publishing 0) a tick whose analog output is empty — a probe that could not
be invoked or produced unparsable text — raises `ValueError` out of
`refresh_mapio_gpio_to_ha`; the poll loop terminates instead of continuing,
so the third (good) tick never publishes.  The claim would require the run
to produce `([0, 0], false)`. -/
theorem claim_C1_counterexample :
    refresh_mapio_gpio_to_ha "a0" "" = .valueError ∧
    appPollLoop [("a0", "1a"), ("a0", ""), ("a0", "1a")] = ([0], true) ∧
    appPollLoop [("a0", "1a"), ("a0", ""), ("a0", "1a")] ≠ ([0, 0], false) := by
  have hp : refresh_mapio_gpio_to_ha "a0" "1a" = .published 0 := by
    unfold refresh_mapio_gpio_to_ha
    rw [show pyIntHex "1a" = some 26 from by decide]
    simp [show pyStrip "a0" = "a0" from by decide]
    norm_num [percentOfVoltage]
  have he : refresh_mapio_gpio_to_ha "a0" "" = .valueError := by
    unfold refresh_mapio_gpio_to_ha
    rw [show pyIntHex "" = none from by decide]
  exact ⟨he, by simp [appPollLoop, hp, he], by simp [appPollLoop, hp, he]⟩

/-- Claim C1 (amended): when the probe output of a tick cannot be parsed as
hexadecimal (including the empty output of a probe that cannot be invoked),
`int(output, 16)` raises `ValueError` inside `refresh_mapio_gpio_to_ha`; no
publish happens for that tick, so the previously published value stays the
last one published — but the exception is not caught (only
`KeyboardInterrupt` is) and propagates out of the poll loop, terminating
polling rather than continuing to the next tick. -/
theorem claim_C1 : ∀ (m a m' a' : String) (p : Nat)
    (rest : List (String × String)),
    pyIntHex a = none →
    refresh_mapio_gpio_to_ha m' a' = .published p →
    refresh_mapio_gpio_to_ha m a = .valueError ∧
    appPollLoop ((m', a') :: (m, a) :: rest) = ([p], true) := by
  intro m a m' a' p rest h1 h2
  have herr : refresh_mapio_gpio_to_ha m a = .valueError := by
    unfold refresh_mapio_gpio_to_ha
    rw [h1]
  exact ⟨herr, by simp [appPollLoop, h2, herr]⟩

/-- Claim C1, witness: `claim_C1` for the good tick `("a0", "1a")` followed
by the failing tick `("a0", "")`. -/
theorem claim_C1_witness :
    pyIntHex "" = none ∧
    refresh_mapio_gpio_to_ha "a0" "" = .valueError ∧
    appPollLoop [("a0", "1a"), ("a0", "")] = ([0], true) := by
  have hp : refresh_mapio_gpio_to_ha "a0" "1a" = .published 0 := by
    unfold refresh_mapio_gpio_to_ha
    rw [show pyIntHex "1a" = some 26 from by decide]
    simp [show pyStrip "a0" = "a0" from by decide]
    norm_num [percentOfVoltage]
  have h := claim_C1 "a0" "" "a0" "1a" 0 [] (by decide) hp
  exact ⟨by decide, h.1, h.2⟩

/-- Claim C7: with PMIC variant `"a0"` and the labeled probe output
`volt=1a`, the code feeds the still-labeled text to `int(_, 16)` — the
`volt=`/`V` stripping happens only after the parse and its result is
discarded — so the parse raises `ValueError` and nothing is published.  Had
the label been removed first, `0x1a = 26` would scale to `2 * 26 / 100 =
0.52` volts and publish percentage 0, exactly the values the claim (and the
dead stripping code) expects. -/
theorem claim_C7 :
    refresh_mapio_gpio_to_ha "a0" "volt=1a" = .valueError ∧
    pyIntHex "volt=1a" = none ∧
    pyIntHex "1a" = some 26 ∧
    refresh_mapio_gpio_to_ha "a0" "1a" = .published 0 ∧
    percentOfVoltage (2 * 26 / 100) = 0 := by
  refine ⟨?_, by decide, by decide, ?_, by norm_num [percentOfVoltage]⟩
  · unfold refresh_mapio_gpio_to_ha
    rw [show pyIntHex "volt=1a" = none from by decide]
  · unfold refresh_mapio_gpio_to_ha
    rw [show pyIntHex "1a" = some 26 from by decide]
    simp [show pyStrip "a0" = "a0" from by decide]
    norm_num [percentOfVoltage]

/-- Claim C3, counterexample: shutdown from a running supervisor succeeds
and leaves the relay line released at level 0, but a second shutdown is not
a no-op — `set_value(0)` on the released line fails, so close-twice raises
where close-once succeeded. -/
theorem claim_C3_counterexample :
    close_mapio_gpio_to_ha (runningSupervisor 1) = .ok closedSupervisor ∧
    closeTwiceFromRunning = .error "line not requested" :=
  ⟨rfl, rfl⟩

/-- Claim C3 (amended): any successful shutdown leaves the relay line's
physical state 0 and the line released, but shutdown is not idempotent — a
second invocation always fails when setting the value of the released
line. -/
theorem claim_C3 : ∀ s s' : SupervisorState,
    close_mapio_gpio_to_ha s = .ok s' →
    s'.relay1_ctrl.value = 0 ∧ s'.relay1_ctrl.requested = false ∧
    close_mapio_gpio_to_ha s' = .error "line not requested" := by
  intro s s' h
  unfold close_mapio_gpio_to_ha gpioSetValue gpioRelease at h
  by_cases hr : s.relay1_ctrl.requested
  · simp only [hr, if_true] at h
    rw [Except.ok.injEq] at h
    subst h
    exact ⟨rfl, rfl, rfl⟩
  · simp [hr] at h

/-- Claim C3, witness: `claim_C3` at the running supervisor with the relay
driven to 1. -/
theorem claim_C3_witness :
    closedSupervisor.relay1_ctrl.value = 0 ∧
    closedSupervisor.relay1_ctrl.requested = false ∧
    close_mapio_gpio_to_ha closedSupervisor = .error "line not requested" :=
  claim_C3 (runningSupervisor 1) closedSupervisor (by rfl)

/-- Claim C8, counterexample: `expose_mapio_gpio_to_ha` never constructs a
binary sensor — the claimed binary charging sensor does not exist; without
the linky feed exactly 5 entities are registered (the claim implies 6), with
it exactly 9 (the claim implies 10). -/
theorem claim_C8_counterexample :
    countKind .binarySensor (expose_mapio_gpio_to_ha false) = 0 ∧
    countKind .binarySensor (expose_mapio_gpio_to_ha true) = 0 ∧
    (expose_mapio_gpio_to_ha false).length = 5 ∧
    (expose_mapio_gpio_to_ha true).length = 9 := by
  decide

/-- Claim C8 (amended): the supervisor registers exactly four switch
entities (relay plus three LED channels), one numeric battery sensor, no
binary charging sensor, and — only when the linky feed is enabled at start —
one TIC sensor per utility-meter measure. -/
theorem claim_C8 :
    countKind .switch (expose_mapio_gpio_to_ha false) = 4 ∧
    countKind .sensor (expose_mapio_gpio_to_ha false) = 1 ∧
    countKind .ticSensor (expose_mapio_gpio_to_ha false) = 0 ∧
    countKind .binarySensor (expose_mapio_gpio_to_ha false) = 0 ∧
    countKind .switch (expose_mapio_gpio_to_ha true) = 4 ∧
    countKind .sensor (expose_mapio_gpio_to_ha true) = 1 ∧
    countKind .ticSensor (expose_mapio_gpio_to_ha true) =
      HA_LINKY_MEASURES.length ∧
    countKind .binarySensor (expose_mapio_gpio_to_ha true) = 0 ∧
    (expose_mapio_gpio_to_ha false).map Entity.uniqueId =
      ["RELAY1", "LED_R", "LED_G", "LED_B", "ups"] ∧
    (expose_mapio_gpio_to_ha true).map Entity.uniqueId =
      ["RELAY1", "LED_R", "LED_G", "LED_B", "ups",
       "apparent_power", "current_summ_delivered",
       "current_tier1_summ_delivered", "current_tier2_summ_delivered"] := by
  decide

end MapioGpioHa
